import Mathlib

/-!
Verification development for the CX-Licensing-Automation reconciliation engine.

The embedding follows `src/excel_tools/excel_file_comparator.py`
(`ExcelFileComparator.compare_and_save`), `src/utils/mapping_utils.py`
(`get_valid_sku_matches`) and `src/utils/date_utils.py` (`standardize_date`).

Modelling conventions:
* A spreadsheet cell that holds an identifier is a `Cell`: either a real
  string or the pandas NaN produced by an empty cell.  The Python code
  compares identifiers after `str(x).strip()` (consumer side) resp.
  `.astype(str).str.strip()` (producer side); both turn NaN into the
  literal string "nan" and trim whitespace, which `normCell` captures.
* `Quantity` on the consumer side may be NaN (`none`); the producer's
  `Available To Use` field is stored as the result of Python's `int(...)`,
  with `none` meaning the conversion raised (the code catches
  `ValueError`/`TypeError` and skips the candidate).
* Calendar dates are linearly ordered and modelled as `Int` (a day count);
  a field of type `Option Int` is the result of `standardize_date`, with
  `none` meaning the parse failed.  `standardize_date` itself is embedded
  separately with an explicit error channel for the totality claim.
-/

namespace CXLicensing

/-- A spreadsheet cell as seen by pandas: either an actual value rendered
as a string, or NaN (an empty cell). -/
inductive Cell where
  | nan : Cell
  | str (s : String) : Cell
deriving DecidableEq

/-- Python's `str(...)` on a cell value: NaN renders as the literal
string "nan". -/
def pyStr : Cell → String
  | Cell.nan => "nan"
  | Cell.str s => s

/-- Python's `str.strip()`: remove leading and trailing whitespace from
the character sequence. -/
def pyStrip (s : String) : String :=
  String.mk (((s.data.dropWhile Char.isWhitespace).reverse.dropWhile
    Char.isWhitespace).reverse)

/-- The normalisation applied before every identifier comparison in the
source: `str(x).strip()` on the consumer side and `.astype(str).str.strip()`
on the producer side. -/
def normCell (c : Cell) : String :=
  pyStrip (pyStr c)

/-- One row of the PRE-EA (consumer) dataset, with the four fields the
comparison loop reads. -/
structure ConsumerRecord where
  alcOrderNumber : Cell
  preEaMigratedPid : Cell
  quantity : Option Int
  expirationDate : Option Int
deriving DecidableEq

/-- One row of the CSSM (producer) dataset, with the four fields the
comparison loop reads. -/
structure ProducerRecord where
  sourceIdentifier : Cell
  sku : Cell
  availableToUse : Option Int
  subscriptionEndDate : Option Int
deriving DecidableEq

/-- The seven terminal classifications.  In the source they surface as
cell colours: EXPIRED_ALREADY is pink/purple, NO_PRIMARY_MATCH and
NO_SECONDARY_MATCH are red, NO_QUANTITY_MATCH is blue, DATE_INVALID and
DATE_OUT_OF_RANGE are yellow, ACCEPTED is green. -/
inductive Outcome where
  | EXPIRED_ALREADY
  | NO_PRIMARY_MATCH
  | NO_SECONDARY_MATCH
  | NO_QUANTITY_MATCH
  | DATE_INVALID
  | DATE_OUT_OF_RANGE
  | ACCEPTED
deriving DecidableEq

/-- Outcomes reached only after the quantity allocator claimed a producer
row (stage 4 succeeded). -/
def allocSucceeded : Outcome → Bool
  | Outcome.ACCEPTED => true
  | Outcome.DATE_INVALID => true
  | Outcome.DATE_OUT_OF_RANGE => true
  | _ => false

/-- Embedding of `get_valid_sku_matches` from `src/utils/mapping_utils.py`:
first a direct SKU match against the migrated PID; only when that is empty
and the PID is a key of the alias map, the mapped SKUs are matched via
`isin`.  Producer rows carry their original dataframe index. -/
def get_valid_sku_matches (cssm_matches : List (Nat × ProducerRecord))
    (pid : String) (amap : List (String × List String)) :
    List (Nat × ProducerRecord) :=
  let direct := cssm_matches.filter (fun ip => normCell ip.2.sku == pid)
  if direct.isEmpty then
    match amap.lookup pid with
    | some skus => cssm_matches.filter (fun ip => skus.contains (normCell ip.2.sku))
    | none => direct
  else direct

/-- Eligibility of one candidate producer row in the allocation loop:
its index is not in `used_cssm_indices`, its `Available To Use` converted
to an integer without raising, and that integer equals the consumer's
quantity (a NaN consumer quantity compares unequal to every integer). -/
def eligibleB (used : List Nat) (qty : Option Int) (ip : Nat × ProducerRecord) : Bool :=
  !used.contains ip.1 &&
    match ip.2.availableToUse, qty with
    | some a, some q => a == q
    | _, _ => false

/-- Embedding of the allocation loop of `compare_and_save`: scan the SKU
matches in dataframe order, skip rows already in `used_cssm_indices`, skip
rows whose `Available To Use` fails `int(...)`, and claim the first row
whose parsed quantity equals the consumer's quantity. -/
def allocate (used : List Nat) (qty : Option Int) :
    List (Nat × ProducerRecord) → Option (Nat × ProducerRecord)
  | [] => none
  | ip :: rest =>
    if used.contains ip.1 then allocate used qty rest
    else
      match ip.2.availableToUse, qty with
      | some a, some q => if a = q then some ip else allocate used qty rest
      | _, _ => allocate used qty rest

/-- Stage-1 test of `compare_and_save`: the parsed PRE-EA expiration
exists (a date object is always truthy in Python) and is strictly before
today. -/
def expiredCheck (exp : Option Int) (today : Int) : Bool :=
  match exp with
  | some d => d < today
  | none => false

/-- The primary-key join: CSSM rows whose `Source Identifier` equals the
consumer's `ALC Order Number` after the string normalisation. -/
def primaryMatches (indexed : List (Nat × ProducerRecord)) (c : ConsumerRecord) :
    List (Nat × ProducerRecord) :=
  indexed.filter (fun ip => normCell ip.2.sourceIdentifier == normCell c.alcOrderNumber)

/-- Stage-5 date rule of `compare_and_save`: yellow/invalid when either
date failed to parse, green when the PRE-EA expiration is at or before the
CSSM subscription end, yellow/out-of-range otherwise. -/
def dateOutcome (cExp pExp : Option Int) : Outcome :=
  match cExp, pExp with
  | some ce, some pe => if ce ≤ pe then Outcome.ACCEPTED else Outcome.DATE_OUT_OF_RANGE
  | _, _ => Outcome.DATE_INVALID

/-- One iteration of the `compare_and_save` row loop: the decision cascade
for a single consumer record, returning its outcome and the dataframe index
of the CSSM row it claimed, if any. -/
def classifyOne (today : Int) (indexed : List (Nat × ProducerRecord))
    (amap : List (String × List String)) (used : List Nat)
    (c : ConsumerRecord) : Outcome × Option Nat :=
  if expiredCheck c.expirationDate today then (Outcome.EXPIRED_ALREADY, none)
  else
    let cssmMatches := primaryMatches indexed c
    if cssmMatches.isEmpty then (Outcome.NO_PRIMARY_MATCH, none)
    else
      let skuMatch := get_valid_sku_matches cssmMatches (normCell c.preEaMigratedPid) amap
      if skuMatch.isEmpty then (Outcome.NO_SECONDARY_MATCH, none)
      else
        match allocate used c.quantity skuMatch with
        | none => (Outcome.NO_QUANTITY_MATCH, none)
        | some ip => (dateOutcome c.expirationDate ip.2.subscriptionEndDate, some ip.1)

/-- Update of `used_cssm_indices` after one consumer record: the claimed
index (if any) is added to the set. -/
def nextUsed : Option Nat → List Nat → List Nat
  | some i, used => i :: used
  | none, used => used

/-- The full row loop, threading `used_cssm_indices` through the consumer
records in input order; returns the outcome per record (in order) and the
final set of claimed CSSM indices. -/
def runAux (today : Int) (indexed : List (Nat × ProducerRecord))
    (amap : List (String × List String)) :
    List ConsumerRecord → List Nat → List Outcome × List Nat
  | [], used => ([], used)
  | c :: cs, used =>
    let r := classifyOne today indexed amap used c
    let rest := runAux today indexed amap cs (nextUsed r.2 used)
    (r.1 :: rest.1, rest.2)

/-- Embedding of `ExcelFileComparator.compare_and_save`: classify every
PRE-EA row against the CSSM rows (indexed by dataframe position), starting
from an empty `used_cssm_indices`. -/
def compare_and_save (today : Int) (pre_ea : List ConsumerRecord)
    (cssm : List ProducerRecord) (amap : List (String × List String)) :
    List Outcome × List Nat :=
  runAux today cssm.enum amap pre_ea []

/-! Embedding of `standardize_date` (`src/utils/date_utils.py`) with an
explicit error channel.  The Python primitives that can raise —
`datetime.strptime` and `pd.to_datetime(..., errors="raise")` — are taken
as parameters returning `Except`; every `try/except` of the source becomes
a `match` that absorbs the `error` case, so the result type
`Except PyErr (Option DateOut)` records whether an exception could escape
the function. -/

/-- A Python exception value (opaque payload). -/
structure PyErr where
  msg : String
deriving DecidableEq

/-- The value domain `standardize_date` is applied to: `None`, a pandas
NaN, a datetime-like object (one with a `.date()` method), a string, or
some other value whose `str(...)` rendering is recorded. -/
inductive PyVal where
  | noneV
  | nanV
  | dateLike (d : Int)
  | strV (s : String)
  | otherV (s : String)
deriving DecidableEq

/-- Python's `str(...)` on a `PyVal`, used before the strptime attempts. -/
def pyValText : PyVal → String
  | PyVal.noneV => "None"
  | PyVal.nanV => "nan"
  | PyVal.dateLike _ => ""
  | PyVal.strV s => s
  | PyVal.otherV s => s

/-- Result of `standardize_date`: a date object by default, or a formatted
string when `out_format` is given. -/
inductive DateOut where
  | dateObj (d : Int)
  | fmtStr (s : String)
deriving DecidableEq

/-- The `return date_obj.strftime(out_format) if out_format else date_obj`
idiom shared by every success path of `standardize_date`. -/
def finishDate (strftime : Int → String → String) (out_format : Option String)
    (d : Int) : DateOut :=
  match out_format with
  | some f => DateOut.fmtStr (strftime d f)
  | none => DateOut.dateObj d

/-- A `for fmt in formats: try strptime ... except: continue` loop: each
failure is caught and the next format is tried. -/
def tryFormats (strptime : String → String → Except PyErr Int)
    (finish : Int → DateOut) : List String → String → Option DateOut
  | [], _ => none
  | f :: fs, text =>
    match strptime text f with
    | Except.ok d => some (finish d)
    | Except.error _ => tryFormats strptime finish fs text

/-- The fixed `candidate_formats` tuple of `standardize_date`. -/
def candidateFormats : List String :=
  ["%Y-%m-%d", "%d-%m-%Y",
   "%d/%m/%Y", "%m/%d/%Y", "%m/%d/%Y %H:%M:%S",
   "%d/%m/%y", "%m/%d/%y", "%m/%d/%y %H:%M:%S",
   "%Y/%m/%d",
   "%Y-%b-%d %H:%M:%S", "%Y-%b-%d", "%d-%b-%Y", "%d-%b-%Y %H:%M:%S",
   "%Y-%B-%d %H:%M:%S", "%Y-%B-%d", "%d-%B-%Y", "%d-%B-%Y %H:%M:%S"]

/-- Embedding of `standardize_date`: `None` and NaN return `None`
immediately; a datetime-like value short-circuits through `.date()`;
otherwise the stripped text is tried against the caller's `in_format`
list, then the fixed candidate formats, and finally the original value is
handed to the pandas parser, whose failure is caught and turned into
`None`. -/
def standardize_date (strptime : String → String → Except PyErr Int)
    (pdToDatetime : PyVal → Except PyErr Int)
    (strftime : Int → String → String)
    (date_input : PyVal) (out_format : Option String) (in_format : List String) :
    Except PyErr (Option DateOut) :=
  match date_input with
  | PyVal.noneV => Except.ok none
  | PyVal.nanV => Except.ok none
  | PyVal.dateLike d => Except.ok (some (finishDate strftime out_format d))
  | v =>
    let text := pyStrip (pyValText v)
    match tryFormats strptime (finishDate strftime out_format) in_format text with
    | some r => Except.ok (some r)
    | none =>
      match tryFormats strptime (finishDate strftime out_format) candidateFormats text with
      | some r => Except.ok (some r)
      | none =>
        match pdToDatetime v with
        | Except.ok d => Except.ok (some (finishDate strftime out_format d))
        | Except.error _ => Except.ok none

/-- Execution relation for the row loop: `RunStep today indexed amap cs
used r` holds when processing the consumer list `cs` starting from the
claimed-index set `used` can produce the outcome list and final
claimed-index set `r`.  It mirrors the observable steps of
`compare_and_save`; determinism of the engine is functionality of this
relation. -/
inductive RunStep (today : Int) (indexed : List (Nat × ProducerRecord))
    (amap : List (String × List String)) :
    List ConsumerRecord → List Nat → List Outcome × List Nat → Prop where
  | nil (used : List Nat) : RunStep today indexed amap [] used ([], used)
  | cons (c : ConsumerRecord) (cs : List ConsumerRecord) (used : List Nat)
      (o : Outcome) (claim : Option Nat) (used2 : List Nat)
      (os : List Outcome) (usedF : List Nat)
      (hstep : classifyOne today indexed amap used c = (o, claim))
      (hused : used2 = nextUsed claim used)
      (hrest : RunStep today indexed amap cs used2 (os, usedF)) :
      RunStep today indexed amap (c :: cs) used (o :: os, usedF)

/-! Helper lemmas about the allocation loop and the row loop. -/

/-- Unfolding of one allocation step: the head candidate is taken exactly
when it is eligible. -/
theorem allocate_cons (used : List Nat) (qty : Option Int)
    (ip : Nat × ProducerRecord) (rest : List (Nat × ProducerRecord)) :
    allocate used qty (ip :: rest) =
      if eligibleB used qty ip then some ip else allocate used qty rest := by
  by_cases h : ip.1 ∈ used
  · simp [allocate, eligibleB, h]
  · cases ha : ip.2.availableToUse with
    | none => cases qty <;> simp [allocate, eligibleB, h, ha]
    | some a =>
      cases qty with
      | none => simp [allocate, eligibleB, h, ha]
      | some q =>
        by_cases hq : a = q
        · simp [allocate, eligibleB, h, ha, hq]
        · simp [allocate, eligibleB, h, ha, hq]

/-- The allocation loop is `List.find?` of the eligibility predicate over
the candidates in their given order. -/
theorem allocate_eq_find (used : List Nat) (qty : Option Int)
    (cands : List (Nat × ProducerRecord)) :
    allocate used qty cands = cands.find? (eligibleB used qty) := by
  induction cands with
  | nil => rfl
  | cons ip rest ih =>
    rw [allocate_cons]
    by_cases h : eligibleB used qty ip
    · rw [if_pos h, List.find?_cons_of_pos _ h]
    · rw [if_neg h, ih, List.find?_cons_of_neg _ h]

/-- A claimed candidate was not previously claimed: its index is outside
the `used` set the loop started from. -/
theorem allocate_claim_not_used (used : List Nat) (qty : Option Int)
    (cands : List (Nat × ProducerRecord)) (ip : Nat × ProducerRecord)
    (h : allocate used qty cands = some ip) : ip.1 ∉ used := by
  rw [allocate_eq_find] at h
  have he := List.find?_some h
  unfold eligibleB at he
  simp only [Bool.and_eq_true] at he
  simpa using he.1

/-- The stage-5 rule only produces allocation-successful outcomes. -/
theorem dateOutcome_allocSucceeded (cExp pExp : Option Int) :
    allocSucceeded (dateOutcome cExp pExp) = true := by
  cases cExp with
  | none => rfl
  | some ce =>
    cases pExp with
    | none => rfl
    | some pe =>
      by_cases hle : ce ≤ pe <;> simp [dateOutcome, allocSucceeded, hle]

/-- Shape of one classification step: the outcome is an
allocation-successful one exactly when a producer index was claimed, and a
claimed index is never one that was already in the `used` set. -/
theorem classifyOne_spec (today : Int) (indexed : List (Nat × ProducerRecord))
    (amap : List (String × List String)) (used : List Nat) (c : ConsumerRecord) :
    allocSucceeded (classifyOne today indexed amap used c).1 =
        ((classifyOne today indexed amap used c).2).isSome ∧
    (∀ i, (classifyOne today indexed amap used c).2 = some i → i ∉ used) := by
  simp only [classifyOne]
  split
  · simp [allocSucceeded]
  · split
    · simp [allocSucceeded]
    · split
      · simp [allocSucceeded]
      · split
        · simp [allocSucceeded]
        · rename_i ip halloc
          refine ⟨by simp [dateOutcome_allocSucceeded], ?_⟩
          intro i hi
          simp only [Option.some.injEq] at hi
          subst hi
          exact allocate_claim_not_used _ _ _ _ halloc

/-- Invariants of the row loop, generalised over the starting
`used_cssm_indices` set: the claimed set grows by exactly one index per
allocation-successful outcome, stays duplicate-free, and never loses an
index. -/
theorem runAux_spec (today : Int) (indexed : List (Nat × ProducerRecord))
    (amap : List (String × List String)) :
    ∀ (cs : List ConsumerRecord) (used : List Nat),
      ((runAux today indexed amap cs used).2).length =
        used.length + ((runAux today indexed amap cs used).1.filter allocSucceeded).length ∧
      (used.Nodup → ((runAux today indexed amap cs used).2).Nodup) ∧
      (∀ i ∈ used, i ∈ (runAux today indexed amap cs used).2)
  | [], used => by simp [runAux]
  | c :: cs, used => by
    obtain ⟨hiso, hnotused⟩ := classifyOne_spec today indexed amap used c
    cases hcl : (classifyOne today indexed amap used c).2 with
    | none =>
      have ih := runAux_spec today indexed amap cs used
      have hfalse : allocSucceeded (classifyOne today indexed amap used c).1 = false := by
        rw [hiso, hcl]; rfl
      simp only [runAux, hcl, nextUsed]
      refine ⟨?_, ih.2.1, ih.2.2⟩
      rw [List.filter_cons_of_neg (by simp [hfalse])]
      exact ih.1
    | some i =>
      have ih := runAux_spec today indexed amap cs (i :: used)
      have htrue : allocSucceeded (classifyOne today indexed amap used c).1 = true := by
        rw [hiso, hcl]; rfl
      simp only [runAux, hcl, nextUsed]
      refine ⟨?_, ?_, ?_⟩
      · rw [List.filter_cons_of_pos htrue, ih.1]
        simp [List.length_cons]
        omega
      · intro hnd
        exact ih.2.1 (List.nodup_cons.mpr ⟨hnotused i hcl, hnd⟩)
      · intro j hj
        exact ih.2.2 j (List.mem_cons_of_mem _ hj)

/-- Every consumer record yields exactly one outcome: the outcome list has
the length of the consumer list, whatever happens on individual rows. -/
theorem runAux_length (today : Int) (indexed : List (Nat × ProducerRecord))
    (amap : List (String × List String)) :
    ∀ (cs : List ConsumerRecord) (used : List Nat),
      ((runAux today indexed amap cs used).1).length = cs.length
  | [], _ => rfl
  | c :: cs, used => by
    simp only [runAux, List.length_cons]
    rw [runAux_length today indexed amap cs _]

/-- The execution relation is a function of its inputs: any two runs from
the same state produce the same outcomes and the same claimed set. -/
theorem runStep_deterministic (today : Int) (indexed : List (Nat × ProducerRecord))
    (amap : List (String × List String)) (cs : List ConsumerRecord)
    (used : List Nat) (r1 r2 : List Outcome × List Nat)
    (h1 : RunStep today indexed amap cs used r1)
    (h2 : RunStep today indexed amap cs used r2) : r1 = r2 := by
  induction h1 generalizing r2 with
  | nil used =>
    cases h2
    rfl
  | cons c cs used o claim used2 os usedF hstep hused hrest ih =>
    cases h2 with
    | cons _ _ _ o2 claim2 used2b os2 usedF2 hstep2 hused2 hrest2 =>
      rw [hstep] at hstep2
      obtain ⟨ho, hclaim⟩ := Prod.mk.injEq _ _ _ _ ▸ hstep2
      subst ho
      subst hclaim
      rw [← hused] at hused2
      subst hused2
      have := ih (os2, usedF2) hrest2
      simp only [Prod.mk.injEq] at this
      simp [this.1, this.2]

/-- The row loop realises the execution relation. -/
theorem runStep_total (today : Int) (indexed : List (Nat × ProducerRecord))
    (amap : List (String × List String)) :
    ∀ (cs : List ConsumerRecord) (used : List Nat),
      RunStep today indexed amap cs used (runAux today indexed amap cs used)
  | [], used => RunStep.nil used
  | c :: cs, used => by
    have h := runStep_total today indexed amap cs
        (nextUsed (classifyOne today indexed amap used c).2 used)
    simp only [runAux]
    exact RunStep.cons c cs used
      (classifyOne today indexed amap used c).1
      (classifyOne today indexed amap used c).2
      (nextUsed (classifyOne today indexed amap used c).2 used)
      (runAux today indexed amap cs (nextUsed (classifyOne today indexed amap used c).2 used)).1
      (runAux today indexed amap cs (nextUsed (classifyOne today indexed amap used c).2 used)).2
      rfl rfl h

/-- A list with a member is not empty (Bool form). -/
theorem isEmpty_false_of_mem {α : Type} {x : α} {l : List α} (h : x ∈ l) :
    l.isEmpty = false := by
  cases l with
  | nil => cases h
  | cons a t => rfl

/-- A candidate whose `Available To Use` fails integer conversion is never
eligible. -/
theorem eligibleB_avail_none (used : List Nat) (qty : Option Int)
    (ip : Nat × ProducerRecord) (h : ip.2.availableToUse = none) :
    eligibleB used qty ip = false := by
  unfold eligibleB
  rw [h]
  cases qty <;> simp

/-- When the direct SKU filter is non-empty, `get_valid_sku_matches`
returns it unchanged (the alias map is not consulted). -/
theorem gvsm_of_direct_ne (cands : List (Nat × ProducerRecord)) (pid : String)
    (amap : List (String × List String))
    (h : (cands.filter (fun ip => normCell ip.2.sku == pid)).isEmpty = false) :
    get_valid_sku_matches cands pid amap =
      cands.filter (fun ip => normCell ip.2.sku == pid) := by
  simp only [get_valid_sku_matches]
  rw [if_neg (by simp [h])]

/-- When the pre-allocation stages pass and the allocation loop claims a
row, the classification is the stage-5 date outcome with that row's index
recorded. -/
theorem classifyOne_alloc (today : Int) (indexed : List (Nat × ProducerRecord))
    (amap : List (String × List String)) (used : List Nat) (c : ConsumerRecord)
    (ip : Nat × ProducerRecord)
    (hexp : expiredCheck c.expirationDate today = false)
    (hprim : (primaryMatches indexed c).isEmpty = false)
    (halloc : allocate used c.quantity
        (get_valid_sku_matches (primaryMatches indexed c)
          (normCell c.preEaMigratedPid) amap) = some ip) :
    classifyOne today indexed amap used c =
      (dateOutcome c.expirationDate ip.2.subscriptionEndDate, some ip.1) := by
  have hsku : (get_valid_sku_matches (primaryMatches indexed c)
      (normCell c.preEaMigratedPid) amap).isEmpty = false := by
    cases hsm : get_valid_sku_matches (primaryMatches indexed c)
        (normCell c.preEaMigratedPid) amap with
    | nil => rw [hsm] at halloc; cases halloc
    | cons => rfl
  simp only [classifyOne]
  rw [if_neg (by simp [hexp]), if_neg (by simp [hprim]), if_neg (by simp [hsku]), halloc]

/-- When the pre-allocation stages pass and no candidate is claimed, the
classification is NO_QUANTITY_MATCH with nothing claimed. -/
theorem classifyOne_no_alloc (today : Int) (indexed : List (Nat × ProducerRecord))
    (amap : List (String × List String)) (used : List Nat) (c : ConsumerRecord)
    (hexp : expiredCheck c.expirationDate today = false)
    (hprim : (primaryMatches indexed c).isEmpty = false)
    (hsku : (get_valid_sku_matches (primaryMatches indexed c)
        (normCell c.preEaMigratedPid) amap).isEmpty = false)
    (halloc : allocate used c.quantity
        (get_valid_sku_matches (primaryMatches indexed c)
          (normCell c.preEaMigratedPid) amap) = none) :
    classifyOne today indexed amap used c = (Outcome.NO_QUANTITY_MATCH, none) := by
  simp only [classifyOne]
  rw [if_neg (by simp [hexp]), if_neg (by simp [hprim]), if_neg (by simp [hsku]), halloc]

/-- Exhaustive shape of the classification of one record, with the stage
condition attached to the two join-failure outcomes. -/
theorem classifyOne_fst_cases (today : Int) (indexed : List (Nat × ProducerRecord))
    (amap : List (String × List String)) (used : List Nat) (c : ConsumerRecord) :
    (classifyOne today indexed amap used c).1 = Outcome.EXPIRED_ALREADY ∨
    ((classifyOne today indexed amap used c).1 = Outcome.NO_PRIMARY_MATCH ∧
      (primaryMatches indexed c).isEmpty = true) ∨
    ((classifyOne today indexed amap used c).1 = Outcome.NO_SECONDARY_MATCH ∧
      (get_valid_sku_matches (primaryMatches indexed c)
        (normCell c.preEaMigratedPid) amap).isEmpty = true) ∨
    (classifyOne today indexed amap used c).1 = Outcome.NO_QUANTITY_MATCH ∨
    allocSucceeded (classifyOne today indexed amap used c).1 = true := by
  simp only [classifyOne]
  split
  · exact Or.inl rfl
  · split
    · rename_i h
      exact Or.inr (Or.inl ⟨rfl, h⟩)
    · split
      · rename_i h
        exact Or.inr (Or.inr (Or.inl ⟨rfl, h⟩))
      · split
        · exact Or.inr (Or.inr (Or.inr (Or.inl rfl)))
        · exact Or.inr (Or.inr (Or.inr (Or.inr (by
            simp [dateOutcome_allocSucceeded]))))

/-! Claim theorems. -/

/-- C1: over any run of the classification, no two consumer records are
allocated the same producer record — the final `used_cssm_indices` set is
duplicate-free and its size equals the number of consumers whose
allocation succeeded, i.e. those ending ACCEPTED, DATE_INVALID or
DATE_OUT_OF_RANGE. -/
theorem no_double_allocation (today : Int) (pre_ea : List ConsumerRecord)
    (cssm : List ProducerRecord) (amap : List (String × List String)) :
    ((compare_and_save today pre_ea cssm amap).2).Nodup ∧
    ((compare_and_save today pre_ea cssm amap).2).length =
      ((compare_and_save today pre_ea cssm amap).1.filter allocSucceeded).length := by
  have h := runAux_spec today cssm.enum amap pre_ea []
  exact ⟨h.2.1 List.nodup_nil, by simpa using h.1⟩

/-- C2: quantity allocation is first-fit — the allocation loop equals
`List.find?` of the eligibility predicate (unclaimed, parseable quantity,
exact equality) over the candidates in their given order, and a consumer
that reaches the allocation stage with no eligible candidate is classified
NO_QUANTITY_MATCH. -/
theorem first_fit_quantity_allocation :
    (∀ (used : List Nat) (qty : Option Int) (cands : List (Nat × ProducerRecord)),
      allocate used qty cands = cands.find? (eligibleB used qty)) ∧
    (∀ (today : Int) (indexed : List (Nat × ProducerRecord))
        (amap : List (String × List String)) (used : List Nat) (c : ConsumerRecord),
      expiredCheck c.expirationDate today = false →
      (primaryMatches indexed c).isEmpty = false →
      ((get_valid_sku_matches (primaryMatches indexed c)
          (normCell c.preEaMigratedPid) amap)).isEmpty = false →
      (get_valid_sku_matches (primaryMatches indexed c)
          (normCell c.preEaMigratedPid) amap).find? (eligibleB used c.quantity) = none →
      classifyOne today indexed amap used c = (Outcome.NO_QUANTITY_MATCH, none)) := by
  refine ⟨allocate_eq_find, ?_⟩
  intro today indexed amap used c h1 h2 h3 h4
  simp only [classifyOne]
  rw [if_neg (by simp [h1]), if_neg (by simp [h2]), if_neg (by simp [h3]),
    allocate_eq_find, h4]

/-- Witness for C2 at a concrete input: one candidate with quantity 5
against a consumer requesting 3 is not eligible, so the consumer ends
NO_QUANTITY_MATCH. -/
theorem first_fit_quantity_allocation_witness :
    classifyOne 0 [(0, ⟨Cell.str "1", Cell.str "Y", some 5, some 10⟩)] [] []
        ⟨Cell.str "1", Cell.str "Y", some 3, some 4⟩ =
      (Outcome.NO_QUANTITY_MATCH, none) :=
  first_fit_quantity_allocation.2 0
    [(0, ⟨Cell.str "1", Cell.str "Y", some 5, some 10⟩)] [] []
    ⟨Cell.str "1", Cell.str "Y", some 3, some 4⟩
    (by decide) (by decide) (by decide) (by decide)

/-- C3: the stage-1 already-expired check dominates — a consumer whose
requested expiration parses and is strictly before today is classified
EXPIRED_ALREADY with no producer record claimed, whatever the producer
dataset, alias map and claimed set contain. -/
theorem expired_already_precedence (today d : Int)
    (indexed : List (Nat × ProducerRecord)) (amap : List (String × List String))
    (used : List Nat) (c : ConsumerRecord)
    (hparse : c.expirationDate = some d) (hlt : d < today) :
    classifyOne today indexed amap used c = (Outcome.EXPIRED_ALREADY, none) := by
  have hc : expiredCheck c.expirationDate today = true := by
    unfold expiredCheck
    rw [hparse]
    exact decide_eq_true hlt
  unfold classifyOne
  rw [if_pos hc]

/-- Witness for C3 at a concrete input: the consumer would match the
producer on every later stage (keys, quantity, date range), but its
expiration 5 is before today 10, so it is EXPIRED_ALREADY. -/
theorem expired_already_precedence_witness :
    classifyOne 10 [(0, ⟨Cell.str "1", Cell.str "Y", some 3, some 20⟩)] [] []
        ⟨Cell.str "1", Cell.str "Y", some 3, some 5⟩ =
      (Outcome.EXPIRED_ALREADY, none) :=
  expired_already_precedence 10 5
    [(0, ⟨Cell.str "1", Cell.str "Y", some 3, some 20⟩)] [] []
    ⟨Cell.str "1", Cell.str "Y", some 3, some 5⟩ rfl (by decide)

/-- C6: scenario E — two identical consumers (primary "1", secondary "Y",
quantity 3, valid in-range future expiration) contend for one producer
(quantity 3, later expiration); the first in input order is ACCEPTED, the
second NO_QUANTITY_MATCH, and exactly the producer row 0 is claimed. -/
theorem scenario_e_contention :
    compare_and_save 0
      [⟨Cell.str "1", Cell.str "Y", some 3, some 5⟩,
       ⟨Cell.str "1", Cell.str "Y", some 3, some 5⟩]
      [⟨Cell.str "1", Cell.str "Y", some 3, some 10⟩] [] =
    ([Outcome.ACCEPTED, Outcome.NO_QUANTITY_MATCH], [0]) := by
  decide

/-- C10: the date normaliser is total over its value domain — for every
input value, output format, input-format list and every behaviour of the
fallible parsing primitives, `standardize_date` returns through the `ok`
channel (a parsed result or `none`); no exception escapes, because every
parsing attempt is guarded and the pandas fallback is caught. -/
theorem standardize_date_total (strptime : String → String → Except PyErr Int)
    (pdToDatetime : PyVal → Except PyErr Int) (strftime : Int → String → String)
    (v : PyVal) (out_format : Option String) (in_format : List String) :
    ∃ r, standardize_date strptime pdToDatetime strftime v out_format in_format =
      Except.ok r := by
  cases v with
  | noneV => exact ⟨none, rfl⟩
  | nanV => exact ⟨none, rfl⟩
  | dateLike d => exact ⟨some (finishDate strftime out_format d), rfl⟩
  | strV s =>
    simp only [standardize_date]
    split
    · exact ⟨_, rfl⟩
    · split
      · exact ⟨_, rfl⟩
      · split
        · exact ⟨_, rfl⟩
        · exact ⟨_, rfl⟩
  | otherV s =>
    simp only [standardize_date]
    split
    · exact ⟨_, rfl⟩
    · split
      · exact ⟨_, rfl⟩
      · split
        · exact ⟨_, rfl⟩
        · exact ⟨_, rfl⟩

/-- C4: for a consumer whose quantity allocation succeeded, an
unparseable expiration on either side yields DATE_INVALID, and with both
dates parsed the outcome is ACCEPTED exactly when the consumer's
expiration is at or before the claimed producer's expiration, else
DATE_OUT_OF_RANGE. -/
theorem date_acceptance_rule (today : Int) (indexed : List (Nat × ProducerRecord))
    (amap : List (String × List String)) (used : List Nat) (c : ConsumerRecord)
    (ip : Nat × ProducerRecord)
    (hexp : expiredCheck c.expirationDate today = false)
    (hprim : (primaryMatches indexed c).isEmpty = false)
    (halloc : allocate used c.quantity
        (get_valid_sku_matches (primaryMatches indexed c)
          (normCell c.preEaMigratedPid) amap) = some ip) :
    ((c.expirationDate = none ∨ ip.2.subscriptionEndDate = none) →
      classifyOne today indexed amap used c = (Outcome.DATE_INVALID, some ip.1)) ∧
    (∀ ce pe, c.expirationDate = some ce → ip.2.subscriptionEndDate = some pe →
      classifyOne today indexed amap used c =
        ((if ce ≤ pe then Outcome.ACCEPTED else Outcome.DATE_OUT_OF_RANGE),
          some ip.1)) := by
  have hcls := classifyOne_alloc today indexed amap used c ip hexp hprim halloc
  constructor
  · intro h
    rw [hcls]
    rcases h with h | h
    · rw [h]
      cases ip.2.subscriptionEndDate <;> rfl
    · rw [h]
      cases c.expirationDate <;> rfl
  · intro ce pe hce hpe
    rw [hcls, hce, hpe]
    rfl

/-- Witness for C4 at a concrete input: allocation succeeds, both dates
parse, and 5 is at or before 10, so the record is ACCEPTED. -/
theorem date_acceptance_rule_witness :
    classifyOne 0 [(0, ⟨Cell.str "1", Cell.str "Y", some 3, some 10⟩)] [] []
        ⟨Cell.str "1", Cell.str "Y", some 3, some 5⟩ =
      (Outcome.ACCEPTED, some 0) := by
  have h := (date_acceptance_rule 0 [(0, ⟨Cell.str "1", Cell.str "Y", some 3, some 10⟩)]
      [] [] ⟨Cell.str "1", Cell.str "Y", some 3, some 5⟩
      (0, ⟨Cell.str "1", Cell.str "Y", some 3, some 10⟩)
      (by decide) (by decide) (by decide)).2 5 10 rfl rfl
  simpa using h

/-- C5: the direct SKU match is tried first — when it is non-empty the
alias map is not consulted — and a consumer with no direct match whose
secondary key is an alias-map key with at least one mapped SKU present
among the primary-matched producers is never classified
NO_SECONDARY_MATCH. -/
theorem alias_fallback :
    (∀ (cands : List (Nat × ProducerRecord)) (pid : String)
        (amap : List (String × List String)),
      ((cands.filter (fun ip => normCell ip.2.sku == pid))).isEmpty = false →
      get_valid_sku_matches cands pid amap =
        cands.filter (fun ip => normCell ip.2.sku == pid)) ∧
    (∀ (today : Int) (indexed : List (Nat × ProducerRecord))
        (amap : List (String × List String)) (used : List Nat)
        (c : ConsumerRecord) (skus : List String),
      ((primaryMatches indexed c).filter
        (fun ip => normCell ip.2.sku == normCell c.preEaMigratedPid)) = [] →
      amap.lookup (normCell c.preEaMigratedPid) = some skus →
      (∃ ip, ip ∈ primaryMatches indexed c ∧ skus.contains (normCell ip.2.sku)) →
      (classifyOne today indexed amap used c).1 ≠ Outcome.NO_SECONDARY_MATCH) := by
  refine ⟨gvsm_of_direct_ne, ?_⟩
  intro today indexed amap used c skus hdirect hlook hex
  obtain ⟨ip, hmem, hsku⟩ := hex
  have hsm : (get_valid_sku_matches (primaryMatches indexed c)
      (normCell c.preEaMigratedPid) amap).isEmpty = false := by
    simp only [get_valid_sku_matches]
    rw [if_pos (by simp [hdirect]), hlook]
    have hf : ip ∈ (primaryMatches indexed c).filter
        (fun q => skus.contains (normCell q.2.sku)) :=
      List.mem_filter.mpr ⟨hmem, hsku⟩
    exact isEmpty_false_of_mem hf
  rcases classifyOne_fst_cases today indexed amap used c with
    h | ⟨h, _⟩ | ⟨h, hc⟩ | h | h
  · rw [h]; decide
  · rw [h]; decide
  · rw [hsm] at hc; cases hc
  · rw [h]; decide
  · intro hcon
    rw [hcon] at h
    cases h

/-- Witness for C5 at a concrete input: the consumer's PID "A" has no
direct SKU match, but the alias map sends "A" to "B", which matches the
producer; the record is not NO_SECONDARY_MATCH. -/
theorem alias_fallback_witness :
    (classifyOne 0 [(0, ⟨Cell.str "1", Cell.str "B", some 3, some 10⟩)]
        [("A", ["B"])] [] ⟨Cell.str "1", Cell.str "A", some 3, some 5⟩).1 ≠
      Outcome.NO_SECONDARY_MATCH :=
  alias_fallback.2 0 [(0, ⟨Cell.str "1", Cell.str "B", some 3, some 10⟩)]
    [("A", ["B"])] [] ⟨Cell.str "1", Cell.str "A", some 3, some 5⟩ ["B"]
    (by decide) (by decide)
    ⟨(0, ⟨Cell.str "1", Cell.str "B", some 3, some 10⟩), by decide, by decide⟩

/-- C7: the classification is deterministic — the execution relation of
the row loop is a function of the fixed inputs (any two runs from the same
state agree on every per-record outcome and on the claimed set), and
`compare_and_save` realises that relation. -/
theorem classification_deterministic :
    (∀ (today : Int) (indexed : List (Nat × ProducerRecord))
        (amap : List (String × List String)) (cs : List ConsumerRecord)
        (used : List Nat) (r1 r2 : List Outcome × List Nat),
      RunStep today indexed amap cs used r1 →
      RunStep today indexed amap cs used r2 → r1 = r2) ∧
    (∀ (today : Int) (cssm : List ProducerRecord)
        (amap : List (String × List String)) (pre_ea : List ConsumerRecord),
      RunStep today cssm.enum amap pre_ea []
        (compare_and_save today pre_ea cssm amap)) := by
  constructor
  · intro today indexed amap cs used r1 r2 h1 h2
    exact runStep_deterministic today indexed amap cs used r1 r2 h1 h2
  · intro today cssm amap pre_ea
    exact runStep_total today cssm.enum amap pre_ea []

/-- Witness for C7 at a concrete input: the run over one consumer and one
producer relates to exactly one result, pinning the outcome of
`compare_and_save` to ACCEPTED with producer row 0 claimed. -/
theorem classification_deterministic_witness :
    compare_and_save 0 [⟨Cell.str "1", Cell.str "Y", some 3, some 5⟩]
      [⟨Cell.str "1", Cell.str "Y", some 3, some 10⟩] [] =
      ([Outcome.ACCEPTED], [0]) :=
  classification_deterministic.1 0
    ([(⟨Cell.str "1", Cell.str "Y", some 3, some 10⟩ : ProducerRecord)]).enum []
    [⟨Cell.str "1", Cell.str "Y", some 3, some 5⟩] []
    (compare_and_save 0 [⟨Cell.str "1", Cell.str "Y", some 3, some 5⟩]
      [⟨Cell.str "1", Cell.str "Y", some 3, some 10⟩] [])
    ([Outcome.ACCEPTED], [0])
    (classification_deterministic.2 0 [⟨Cell.str "1", Cell.str "Y", some 3, some 10⟩]
      [] [⟨Cell.str "1", Cell.str "Y", some 3, some 5⟩])
    (RunStep.cons _ [] [] Outcome.ACCEPTED (some 0) [0] [] [0]
      (by decide) rfl (RunStep.nil [0]))

/-- C8: data-quality problems stay row-local — every consumer record gets
an outcome (the outcome list always has the length of the input, so no
record aborts the run), a candidate whose quantity fails integer
conversion is skipped, a consumer all of whose candidates are unparseable
ends NO_QUANTITY_MATCH, and a consumer whose expiration fails to parse at
the date stage ends DATE_INVALID. -/
theorem row_local_error_absorption :
    (∀ (today : Int) (indexed : List (Nat × ProducerRecord))
        (amap : List (String × List String)) (cs : List ConsumerRecord)
        (used : List Nat),
      ((runAux today indexed amap cs used).1).length = cs.length) ∧
    (∀ (used : List Nat) (qty : Option Int) (i : Nat) (p : ProducerRecord)
        (rest : List (Nat × ProducerRecord)),
      p.availableToUse = none →
      allocate used qty ((i, p) :: rest) = allocate used qty rest) ∧
    (∀ (today : Int) (indexed : List (Nat × ProducerRecord))
        (amap : List (String × List String)) (used : List Nat) (c : ConsumerRecord),
      expiredCheck c.expirationDate today = false →
      (primaryMatches indexed c).isEmpty = false →
      (get_valid_sku_matches (primaryMatches indexed c)
        (normCell c.preEaMigratedPid) amap).isEmpty = false →
      (∀ ip ∈ get_valid_sku_matches (primaryMatches indexed c)
          (normCell c.preEaMigratedPid) amap, ip.2.availableToUse = none) →
      classifyOne today indexed amap used c = (Outcome.NO_QUANTITY_MATCH, none)) ∧
    (∀ (today : Int) (indexed : List (Nat × ProducerRecord))
        (amap : List (String × List String)) (used : List Nat) (c : ConsumerRecord)
        (ip : Nat × ProducerRecord),
      expiredCheck c.expirationDate today = false →
      (primaryMatches indexed c).isEmpty = false →
      allocate used c.quantity
        (get_valid_sku_matches (primaryMatches indexed c)
          (normCell c.preEaMigratedPid) amap) = some ip →
      c.expirationDate = none →
      classifyOne today indexed amap used c = (Outcome.DATE_INVALID, some ip.1)) := by
  refine ⟨runAux_length, ?_, ?_, ?_⟩
  · intro used qty i p rest hp
    rw [allocate_cons, if_neg (by simp [eligibleB_avail_none used qty (i, p) hp])]
  · intro today indexed amap used c hexp hprim hsku hall
    refine classifyOne_no_alloc today indexed amap used c hexp hprim hsku ?_
    rw [allocate_eq_find]
    rw [List.find?_eq_none]
    intro x hx
    simp [eligibleB_avail_none used c.quantity x (hall x hx)]
  · intro today indexed amap used c ip hexp hprim halloc hdate
    rw [classifyOne_alloc today indexed amap used c ip hexp hprim halloc, hdate]
    cases ip.2.subscriptionEndDate <;> rfl

/-- Witness for C8 at a concrete input: the only candidate's quantity is
unparseable, so the consumer ends NO_QUANTITY_MATCH and nothing is
claimed. -/
theorem row_local_error_absorption_witness :
    classifyOne 0 [(0, ⟨Cell.str "1", Cell.str "Y", none, some 10⟩)] [] []
        ⟨Cell.str "1", Cell.str "Y", some 3, some 5⟩ =
      (Outcome.NO_QUANTITY_MATCH, none) :=
  row_local_error_absorption.2.2.1 0
    [(0, ⟨Cell.str "1", Cell.str "Y", none, some 10⟩)] [] []
    ⟨Cell.str "1", Cell.str "Y", some 3, some 5⟩
    (by decide) (by decide) (by decide) (by decide)

/-- C9: missing identifiers join as the literal string "nan" — an
empty/NaN cell renders as "nan" under the string conversion both sides
apply, so a consumer with a NaN primary (resp. secondary) key joins any
producer whose corresponding field is also NaN and is not classified
NO_PRIMARY_MATCH (resp. NO_SECONDARY_MATCH). -/
theorem nan_key_matching :
    pyStr Cell.nan = "nan" ∧
    (∀ (today : Int) (indexed : List (Nat × ProducerRecord))
        (amap : List (String × List String)) (used : List Nat) (c : ConsumerRecord)
        (ip : Nat × ProducerRecord),
      c.alcOrderNumber = Cell.nan → ip ∈ indexed →
      ip.2.sourceIdentifier = Cell.nan →
      (classifyOne today indexed amap used c).1 ≠ Outcome.NO_PRIMARY_MATCH) ∧
    (∀ (today : Int) (indexed : List (Nat × ProducerRecord))
        (amap : List (String × List String)) (used : List Nat) (c : ConsumerRecord)
        (ip : Nat × ProducerRecord),
      c.preEaMigratedPid = Cell.nan → ip ∈ primaryMatches indexed c →
      ip.2.sku = Cell.nan →
      (classifyOne today indexed amap used c).1 ≠ Outcome.NO_SECONDARY_MATCH) := by
  refine ⟨rfl, ?_, ?_⟩
  · intro today indexed amap used c ip hc hmem hp
    have hf : ip ∈ primaryMatches indexed c := by
      refine List.mem_filter.mpr ⟨hmem, ?_⟩
      rw [hp, hc]
      decide
    have hprim : (primaryMatches indexed c).isEmpty = false :=
      isEmpty_false_of_mem hf
    rcases classifyOne_fst_cases today indexed amap used c with
      h | ⟨h, hc2⟩ | ⟨h, _⟩ | h | h
    · rw [h]; decide
    · rw [hprim] at hc2; cases hc2
    · rw [h]; decide
    · rw [h]; decide
    · intro hcon
      rw [hcon] at h
      cases h
  · intro today indexed amap used c ip hc hmem hp
    have hf : ip ∈ (primaryMatches indexed c).filter
        (fun q => normCell q.2.sku == normCell c.preEaMigratedPid) := by
      refine List.mem_filter.mpr ⟨hmem, ?_⟩
      rw [hp, hc]
      decide
    have hdir : ((primaryMatches indexed c).filter
        (fun q => normCell q.2.sku == normCell c.preEaMigratedPid)).isEmpty = false :=
      isEmpty_false_of_mem hf
    have hsm : (get_valid_sku_matches (primaryMatches indexed c)
        (normCell c.preEaMigratedPid) amap).isEmpty = false := by
      rw [gvsm_of_direct_ne _ _ _ hdir]
      exact hdir
    rcases classifyOne_fst_cases today indexed amap used c with
      h | ⟨h, _⟩ | ⟨h, hc2⟩ | h | h
    · rw [h]; decide
    · rw [h]; decide
    · rw [hsm] at hc2; cases hc2
    · rw [h]; decide
    · intro hcon
      rw [hcon] at h
      cases h

/-- Witness for C9 at a concrete input: consumer and producer both have
NaN primary keys; the primary join succeeds, so the record is not
NO_PRIMARY_MATCH. -/
theorem nan_key_matching_witness :
    (classifyOne 0 [(0, ⟨Cell.nan, Cell.str "Y", some 3, some 10⟩)] [] []
        ⟨Cell.nan, Cell.str "Y", some 3, some 5⟩).1 ≠ Outcome.NO_PRIMARY_MATCH :=
  nan_key_matching.2.1 0 [(0, ⟨Cell.nan, Cell.str "Y", some 3, some 10⟩)] [] []
    ⟨Cell.nan, Cell.str "Y", some 3, some 5⟩
    (0, ⟨Cell.nan, Cell.str "Y", some 3, some 10⟩) rfl (by decide) rfl

end CXLicensing
